import Mathlib

/-!
Verification development for the Dhan copy-trading system.

The definitions below are shallow embeddings of the Python sources of
Task-009-DhanHQ-API-Architecture (core/order_replicator.py, core/database.py,
main.py, utils/resilience.py, the position sizer kept under
deleted/20251003-144230/Task-001-old-architecture/position_sizing/) and of
Task-001-Copy-Trading-Architecture (orders/order_manager.py).

Modelling conventions: prices and balances are exact rationals (machine
floats are treated as exact); quantities are naturals; Python `None` is
`Option.none`; Python truthiness is modelled explicitly; wall-clock
timestamps and audit-only columns are omitted where no claim reads them.
-/

namespace CopyTrading

/-- Python truthiness of an optional string: `None` and `""` are falsy. -/
def truthyStr : Option String → Bool
  | none => false
  | some s => !s.isEmpty

/-- Python truthiness of an optional number: `None` and `0` are falsy. -/
def truthyQ : Option ℚ → Bool
  | none => false
  | some q => q != 0

/-- Python `a or b` on optional numbers: `a` when truthy, otherwise `b`. -/
def pyOrQ : Option ℚ → Option ℚ → Option ℚ
  | some a, b => if a = 0 then b else some a
  | none, b => b

/-- Python `int(q)` on a float value: truncation toward zero. -/
def truncQ (q : ℚ) : Int :=
  if q < 0 then -(Int.floor (-q)) else Int.floor q

/-!
## Position sizer
From `position_sizing/position_sizer.py` (class `PositionSizer`).
-/

/-- Instrument metadata (`core/models.py`, class `Instrument`), restricted to
the fields the sizer reads. -/
structure Instrument where
  security_id : String
  lot_size : Nat
  deriving DecidableEq

/-- The configured sizing strategy (`config.py`, enum `SizingStrategy`). -/
inductive SizingStrategy
  | capitalProportional
  | fixedRatio
  | riskBased
  deriving DecidableEq

/-- `PositionSizer.get_capital_ratio`: follower available balance over leader
available balance, `0` when the leader balance is `0`.  (The source name
`capital_ratio` carries a `Val` suffix here for lexical reasons.) -/
def capitalRatioVal (leaderBalance followerBalance : ℚ) : ℚ :=
  if leaderBalance = 0 then 0 else followerBalance / leaderBalance

/-- `max_position_value = follower_available * (max_position_size_pct / 100)`
as computed in `_apply_risk_limits` and `_calculate_risk_based`. -/
def positionCap (followerBalance maxPositionSizePct : ℚ) : ℚ :=
  followerBalance * (maxPositionSizePct / 100)

/-- Raw (pre-rounding) follower quantity per strategy:
`_calculate_capital_proportional`, `_calculate_fixed_ratio` (falls back to
capital-proportional when the ratio is unset) and `_calculate_risk_based`
(falls back when the premium is `None` or `0`). -/
def rawQuantity (strategy : SizingStrategy) (copyRatioOpt : Option ℚ)
    (maxPositionSizePct leaderBalance followerBalance : ℚ)
    (leaderQuantity : Nat) (inst : Instrument) (premium : Option ℚ) : ℚ :=
  match strategy with
  | .capitalProportional =>
      leaderQuantity * capitalRatioVal leaderBalance followerBalance
  | .fixedRatio =>
      match copyRatioOpt with
      | none => leaderQuantity * capitalRatioVal leaderBalance followerBalance
      | some r => leaderQuantity * r
  | .riskBased =>
      match premium with
      | none => leaderQuantity * capitalRatioVal leaderBalance followerBalance
      | some p =>
          if p = 0 then leaderQuantity * capitalRatioVal leaderBalance followerBalance
          else
            min (positionCap followerBalance maxPositionSizePct / (p * inst.lot_size))
                ((leaderQuantity : ℚ) / inst.lot_size) * inst.lot_size

/-- `PositionSizer._round_to_lot_size`: non-positive input yields `0`;
otherwise floor to whole lots, bumping a zero-lot result up to one lot. -/
def roundToLotSize (quantity : ℚ) (lotSize : Nat) : Nat :=
  if quantity ≤ 0 then 0
  else max (Int.floor (quantity / (lotSize : ℚ))).toNat 1 * lotSize

/-- `PositionSizer._apply_risk_limits`.  The premium follows Python
truthiness (`if premium:`), so `None` and `0` both select the conservative
`quantity * 100` position-value estimate.  When the value exceeds the cap,
the truthy-premium branch reduces to `int(cap / (premium * lot_size))` lots
while the falsy branch reduces to `int(quantity / lot_size) - 1` lots.  The
result is an `Int` because the falsy-branch subtraction can go negative in
Python. -/
def applyRiskLimits (quantity : Nat) (lotSize : Nat) (premium : Option ℚ)
    (followerBalance maxPositionSizePct : ℚ) : Int :=
  if quantity = 0 then 0
  else
    let positionValue : ℚ :=
      if truthyQ premium then quantity * premium.getD 0 else quantity * 100
    if positionValue > positionCap followerBalance maxPositionSizePct then
      let maxLots : Int :=
        if truthyQ premium then
          truncQ (positionCap followerBalance maxPositionSizePct /
            (premium.getD 0 * lotSize))
        else (quantity / lotSize : Nat) - 1
      maxLots * lotSize
    else quantity

/-- `PositionSizer.calculate_quantity`: when the instrument is missing from
the cache the leader quantity is returned unchanged; otherwise compute the
strategy's raw quantity, round to lots, and apply risk limits. -/
def calculateQuantity (strategy : SizingStrategy) (copyRatioOpt : Option ℚ)
    (maxPositionSizePct leaderBalance followerBalance : ℚ)
    (leaderQuantity : Nat) (inst : Option Instrument) (premium : Option ℚ) : Int :=
  match inst with
  | none => leaderQuantity
  | some i =>
      let raw := rawQuantity strategy copyRatioOpt maxPositionSizePct
        leaderBalance followerBalance leaderQuantity i premium
      let adjusted := roundToLotSize raw i.lot_size
      applyRiskLimits adjusted i.lot_size premium followerBalance maxPositionSizePct

/-!
## Store: the correspondence map
From `core/database.py` (`save_copy_mapping`, `get_copy_mapping_by_leader`)
and `core/models.py` (class `CopyMapping`).  The map is keyed by
`leader_order_id`; audit-only columns (sizing strategy tag, capital-ratio
snapshot, timestamps) are omitted.  The field `capital_ratio` would carry a
suffix here anyway; it is dropped with the other audit columns.
-/

/-- One `copy_mappings` row. -/
structure CopyMapping where
  leader_order_id : String
  follower_order_id : Option String
  leader_quantity : Nat
  follower_quantity : Nat
  status : String
  error_message : Option String
  deriving DecidableEq

/-- `DatabaseManager.get_copy_mapping_by_leader`. -/
def lookupMapping (store : List CopyMapping) (leaderOrderId : String) :
    Option CopyMapping :=
  store.find? fun m => m.leader_order_id == leaderOrderId

/-- `DatabaseManager.save_copy_mapping`: a plain `INSERT OR REPLACE` keyed by
leader order id — last writer wins, with no guard of any kind. -/
def saveCopyMapping (store : List CopyMapping) (m : CopyMapping) :
    List CopyMapping :=
  m :: store.filter fun r => r.leader_order_id != m.leader_order_id

/-!
## Claims C10 and C2
-/

/-- Claim C10 (confirmed): for every leader quantity and a security id with
no entry in the instrument cache, `calculate_quantity` returns the leader
quantity unchanged — no strategy, rounding, or cap is applied. -/
theorem C10_unknown_instrument_bypasses_sizing
    (strategy : SizingStrategy) (copyRatioOpt : Option ℚ)
    (maxPositionSizePct leaderBalance followerBalance : ℚ)
    (leaderQuantity : Nat) (premium : Option ℚ) :
    calculateQuantity strategy copyRatioOpt maxPositionSizePct leaderBalance
      followerBalance leaderQuantity none premium = leaderQuantity := rfl

/-- Claim C2, counterexample: `save_copy_mapping` does NOT reject a write
that clears a non-null `follower_id` and regresses a `placed` row back to
`pending`; the second write simply replaces the row, so the follower id of a
`placed` mapping is not immutable under `put_mapping`. -/
theorem C2_cx_regressive_write_accepted :
    lookupMapping
      (saveCopyMapping
        (saveCopyMapping []
          { leader_order_id := "L1", follower_order_id := some "F1",
            leader_quantity := 100, follower_quantity := 50,
            status := "placed", error_message := none })
        { leader_order_id := "L1", follower_order_id := none,
          leader_quantity := 100, follower_quantity := 50,
          status := "pending", error_message := none })
      "L1"
    = some
      { leader_order_id := "L1", follower_order_id := none,
        leader_quantity := 100, follower_quantity := 50,
        status := "pending", error_message := none } := by
  rfl

/-- Claim C2 (amended): `save_copy_mapping` is an unconditional upsert keyed
by leader id — every write, including one that clears `follower_id` or
regresses the status, becomes the stored row (last writer wins). -/
theorem C2_save_mapping_last_writer_wins (store : List CopyMapping)
    (m : CopyMapping) :
    lookupMapping (saveCopyMapping store m) m.leader_order_id = some m := by
  simp [lookupMapping, saveCopyMapping]

/-!
## Replicator
From `core/order_replicator.py` (`OrderReplicator.replicate_order` and its
placement helpers) and `main.py` (`CopyTradingSystem._handle_order_update`).
The collaborators the replicator calls (map lookup, sizer, margin check,
broker placement reply) are supplied as an environment.
-/

/-- Follower-side placement commands the code can issue
(`OrdersAPI.place_order`, `OrdersAPI.place_slice_order`,
`SuperOrderAPI.place_cover_order`, `SuperOrderAPI.place_bracket_order`). -/
inductive Command
  | placeSingle (securityId : String) (quantity : Nat) (disclosedQuantity : Option Nat)
  | placeSliced (securityId : String) (quantity : Nat) (disclosedQuantity : Option Nat)
  | placeCover (securityId : String) (quantity : Nat) (disclosedQuantity : Option Nat)
  | placeBracket (securityId : String) (quantity : Nat) (disclosedQuantity : Option Nat)
  deriving DecidableEq

/-- Whether a command is the sliced (over-freeze-limit) placement. -/
def Command.isSliced : Command → Bool
  | .placeSliced _ _ _ => true
  | _ => false

/-- The leader order event fields read by `replicate_order`. -/
structure LeaderOrderData where
  orderId : Option String
  securityId : Option String
  exchangeSegment : Option String
  transactionType : Option String
  quantity : Nat
  orderType : Option String
  productType : Option String
  price : ℚ
  disclosedQuantity : Option Nat
  stopLossValue : Option ℚ
  coStopLossValue : Option ℚ
  boStopLossValue : Option ℚ
  boProfitValue : Option ℚ
  deriving DecidableEq

/-- Results of the collaborators `replicate_order` consults: the
correspondence-map row for this leader id, the sizer's quantity, the margin
validation, and the broker's reply to whichever placement is dispatched. -/
structure ReplicateEnv where
  existingMapping : Option CopyMapping
  sizedQuantity : Nat
  marginOk : Bool
  marginError : String
  placeResult : Option String
  deriving DecidableEq

/-- What one `replicate_order` call did: its return value, the placement
commands it dispatched, and the mapping rows it saved. -/
structure ReplicateTrace where
  result : Option String
  commands : List Command
  mappingWrites : List CopyMapping
  deriving DecidableEq

/-- `if not all([leader_order_id, security_id, exchange_segment,
transaction_type, quantity])` — Python truthiness of each required field. -/
def fieldsPresent (d : LeaderOrderData) : Bool :=
  truthyStr d.orderId && truthyStr d.securityId && truthyStr d.exchangeSegment &&
    truthyStr d.transactionType && (d.quantity != 0)

/-- Proportional disclosed quantity (`replicate_order`, guarded by
`if disclosed_qty and follower_quantity > 0`): the float product
`int(follower_quantity * (disclosed_qty / quantity))` is the exact rational
floor; it is then capped above by the follower quantity.  There is no lower
clamp. -/
def followerDisclosedQty (followerQty leaderQty : Nat)
    (disclosedQty : Option Nat) : Option Nat :=
  match disclosedQty with
  | some dq =>
      if dq ≠ 0 ∧ 0 < followerQty then
        some (min (followerQty * dq / leaderQty) followerQty)
      else none
  | none => none

/-- `OrderReplicator._save_failed_mapping`: a row with no follower id,
status `failed` and the structured reason. -/
def failedMapping (d : LeaderOrderData) (followerQty : Nat)
    (errorMessage : String) : CopyMapping :=
  { leader_order_id := d.orderId.getD ""
    follower_order_id := none
    leader_quantity := d.quantity
    follower_quantity := followerQty
    status := "failed"
    error_message := some errorMessage }

/-- `OrderReplicator._save_copy_mapping` with status `placed`. -/
def placedMapping (d : LeaderOrderData) (followerOrderId : String)
    (followerQty : Nat) : CopyMapping :=
  { leader_order_id := d.orderId.getD ""
    follower_order_id := some followerOrderId
    leader_quantity := d.quantity
    follower_quantity := followerQty
    status := "placed"
    error_message := none }

/-- Placement dispatch (`replicate_order` with `_place_cover_order`,
`_place_bracket_order`, `_place_basic_order`): product `CO` goes to the
cover placement (requiring a truthy `stopLossValue or coStopLossValue`),
product `BO` to the bracket placement (requiring truthy stop-loss AND
profit values), and every other product to the single basic placement.
Nothing on this path examines the quantity against a freeze limit, and
nothing dispatches `place_slice_order`. -/
def dispatchPlacement (env : ReplicateEnv) (d : LeaderOrderData)
    (followerQty : Nat) (followerDisclosed : Option Nat) :
    List Command × Option String :=
  let sid := d.securityId.getD ""
  if d.productType = some "CO" then
    if truthyQ (pyOrQ d.stopLossValue d.coStopLossValue) then
      ([Command.placeCover sid followerQty followerDisclosed], env.placeResult)
    else ([], none)
  else if d.productType = some "BO" then
    if truthyQ d.boStopLossValue && truthyQ d.boProfitValue then
      ([Command.placeBracket sid followerQty followerDisclosed], env.placeResult)
    else ([], none)
  else ([Command.placeSingle sid followerQty followerDisclosed], env.placeResult)

/-- The body of `replicate_order` after the idempotency lookup: zero sized
quantity and failed margin validation record `failed` mappings and stop; a
successful placement records a `placed` mapping with the follower id; a
placement that returns no id records a `failed` mapping. -/
def replicateCore (env : ReplicateEnv) (d : LeaderOrderData) : ReplicateTrace :=
  if env.sizedQuantity = 0 then
    { result := none, commands := [],
      mappingWrites := [failedMapping d 0 "Calculated quantity is 0"] }
  else if !env.marginOk then
    { result := none, commands := [],
      mappingWrites := [failedMapping d env.sizedQuantity env.marginError] }
  else
    let fdq := followerDisclosedQty env.sizedQuantity d.quantity d.disclosedQuantity
    let disp := dispatchPlacement env d env.sizedQuantity fdq
    match disp.2 with
    | some fid =>
        { result := some fid, commands := disp.1,
          mappingWrites := [placedMapping d fid env.sizedQuantity] }
    | none =>
        { result := none, commands := disp.1,
          mappingWrites := [failedMapping d env.sizedQuantity
            "Failed to place follower order"] }

/-- `OrderReplicator.replicate_order`: required-field validation, then the
idempotency check against the correspondence map — ONLY a row with status
`placed` short-circuits (returning its follower id); any other existing row,
including `cancelled` and `failed`, falls through to sizing and dispatch. -/
def replicateOrder (env : ReplicateEnv) (d : LeaderOrderData) : ReplicateTrace :=
  if !fieldsPresent d then { result := none, commands := [], mappingWrites := [] }
  else
    match env.existingMapping with
    | some m =>
        if m.status = "placed" then
          { result := m.follower_order_id, commands := [], mappingWrites := [] }
        else replicateCore env d
    | none => replicateCore env d

/-- What one `_handle_order_update` call did. -/
structure OrderUpdateOutcome where
  watermarkAdvanced : Bool
  trace : ReplicateTrace
  deriving DecidableEq

/-- `CopyTradingSystem._handle_order_update` (`main.py`): only statuses
`PENDING`/`TRANSIT`/`OPEN` are replicated, and the `last_leader_event_ts`
watermark is written only when `replicate_order` returned a follower order
id. -/
def handleOrderUpdate (env : ReplicateEnv) (d : LeaderOrderData)
    (orderStatus : String) : OrderUpdateOutcome :=
  if orderStatus ∈ (["PENDING", "TRANSIT", "OPEN"] : List String) then
    let t := replicateOrder env d
    { watermarkAdvanced := t.result.isSome, trace := t }
  else
    { watermarkAdvanced := false,
      trace := { result := none, commands := [], mappingWrites := [] } }

/-!
## Claims C1, C3, C6, C7
-/

/-- A well-formed basic (non-CO/BO) leader order event. -/
def sampleOrderData : LeaderOrderData :=
  { orderId := some "L100", securityId := some "SEC1",
    exchangeSegment := some "NSE_FNO", transactionType := some "BUY",
    quantity := 100, orderType := some "LIMIT",
    productType := some "INTRADAY", price := 50,
    disclosedQuantity := none, stopLossValue := none, coStopLossValue := none,
    boStopLossValue := none, boProfitValue := none }

/-- An environment whose correspondence-map row for the leader id has status
`cancelled`, with sizing and margin succeeding. -/
def envCancelledRow : ReplicateEnv :=
  { existingMapping := some
      { leader_order_id := "L100", follower_order_id := some "F0",
        leader_quantity := 100, follower_quantity := 50,
        status := "cancelled", error_message := some "Leader order cancelled" },
    sizedQuantity := 50, marginOk := true, marginError := "",
    placeResult := some "F1" }

/-- Claim C1, counterexample: a leader id whose map row has status
`cancelled` is NOT gated — `replicate_order` dispatches a fresh placement
for it, so the map is not honoured as an idempotency gate for `cancelled`. -/
theorem C1_cx_cancelled_row_not_gated :
    (envCancelledRow.existingMapping.map fun m => m.status) = some "cancelled"
    ∧ (replicateOrder envCancelledRow sampleOrderData).commands
        = [Command.placeSingle "SEC1" 50 none] := by
  exact ⟨rfl, rfl⟩

/-- Claim C1 (amended): only a map row with status `placed` blocks
replication — the call then returns the row's follower id and issues no
command; the code has no gate for `cancelled` rows. -/
theorem C1_placed_row_blocks_replication (env : ReplicateEnv)
    (d : LeaderOrderData) (m : CopyMapping)
    (hm : env.existingMapping = some m) (hs : m.status = "placed") :
    (replicateOrder env d).commands = []
    ∧ (fieldsPresent d = true →
        (replicateOrder env d).result = m.follower_order_id) := by
  unfold replicateOrder
  rw [hm]
  by_cases h : fieldsPresent d <;> simp [h, hs]

/-- An environment with a `placed` map row for the leader id. -/
def envPlacedRow : ReplicateEnv :=
  { existingMapping := some
      { leader_order_id := "L100", follower_order_id := some "F9",
        leader_quantity := 100, follower_quantity := 50,
        status := "placed", error_message := none },
    sizedQuantity := 50, marginOk := true, marginError := "",
    placeResult := some "F1" }

/-- Witness for C1: on a concrete `placed` row the replicator issues no
command and returns the existing follower id. -/
theorem C1_placed_row_blocks_replication_witness :
    (replicateOrder envPlacedRow sampleOrderData).commands = []
    ∧ (fieldsPresent sampleOrderData = true →
        (replicateOrder envPlacedRow sampleOrderData).result = some "F9") :=
  C1_placed_row_blocks_replication envPlacedRow sampleOrderData
    { leader_order_id := "L100", follower_order_id := some "F9",
      leader_quantity := 100, follower_quantity := 50,
      status := "placed", error_message := none } rfl rfl

/-- An environment in which the sizer computes quantity `0` (for example a
leader quantity below one follower lot under the cap). -/
def envZeroQty : ReplicateEnv :=
  { existingMapping := none, sizedQuantity := 0, marginOk := true,
    marginError := "", placeResult := none }

/-- Claim C3, counterexample: an event whose decision records a `failed`
mapping (sized quantity `0`) does NOT advance the watermark —
`_handle_order_update` writes `last_leader_event_ts` only when
`replicate_order` returned a follower id. -/
theorem C3_cx_failed_decision_no_watermark :
    (handleOrderUpdate envZeroQty sampleOrderData "OPEN").watermarkAdvanced = false
    ∧ (handleOrderUpdate envZeroQty sampleOrderData "OPEN").trace.mappingWrites
        = [{ leader_order_id := "L100", follower_order_id := none,
             leader_quantity := 100, follower_quantity := 0,
             status := "failed",
             error_message := some "Calculated quantity is 0" }] := by
  exact ⟨rfl, rfl⟩

/-- Claim C3 (amended): the watermark is persisted exactly when the event
status is `PENDING`/`TRANSIT`/`OPEN` and `replicate_order` returned a
follower order id; decisions that record a `failed` mapping do not advance
it. -/
theorem C3_watermark_only_on_placement (env : ReplicateEnv)
    (d : LeaderOrderData) (orderStatus : String) :
    (handleOrderUpdate env d orderStatus).watermarkAdvanced
      = (decide (orderStatus ∈ (["PENDING", "TRANSIT", "OPEN"] : List String))
          && (replicateOrder env d).result.isSome) := by
  unfold handleOrderUpdate
  by_cases h : orderStatus ∈ (["PENDING", "TRANSIT", "OPEN"] : List String) <;>
    simp [h]

/-- A basic leader order event carrying a positive disclosed quantity whose
proportional follower value floors to zero. -/
def orderDataSmallDisclosed : LeaderOrderData :=
  { orderId := some "L600", securityId := some "SEC6",
    exchangeSegment := some "NSE_FNO", transactionType := some "BUY",
    quantity := 100, orderType := some "LIMIT",
    productType := some "INTRADAY", price := 50,
    disclosedQuantity := some 10, stopLossValue := none,
    coStopLossValue := none, boStopLossValue := none, boProfitValue := none }

/-- An environment sizing the follower at 5 units for the event above. -/
def envSmallFollower : ReplicateEnv :=
  { existingMapping := none, sizedQuantity := 5, marginOk := true,
    marginError := "", placeResult := some "F6" }

/-- Claim C6, counterexample: with leader qty 100, leader disclosed qty 10
and follower qty 5, the proportional value floors to 0 and the placement is
dispatched with disclosed quantity 0 — not one lot; there is no lower
clamp. -/
theorem C6_cx_disclosed_qty_zero :
    orderDataSmallDisclosed.disclosedQuantity = some 10
    ∧ (replicateOrder envSmallFollower orderDataSmallDisclosed).commands
        = [Command.placeSingle "SEC6" 5 (some 0)] := by
  exact ⟨rfl, rfl⟩

/-- Claim C6 (amended): for a replicated basic order whose leader event
carries a positive disclosed quantity, the follower disclosed quantity is
`min(floor(follower_qty * disclosed_leader / leader_qty), follower_qty)` —
clamped above by the follower quantity only, with no one-lot lower clamp, so
it can be zero. -/
theorem C6_disclosed_qty_proportional_no_lower_clamp (env : ReplicateEnv)
    (d : LeaderOrderData) (dq : Nat) (fid : String)
    (hf : fieldsPresent d = true)
    (hm : ∀ m, env.existingMapping = some m → m.status ≠ "placed")
    (hq : env.sizedQuantity ≠ 0) (hmg : env.marginOk = true)
    (hdq : d.disclosedQuantity = some dq) (hdq0 : dq ≠ 0)
    (hco : d.productType ≠ some "CO") (hbo : d.productType ≠ some "BO")
    (hpl : env.placeResult = some fid) :
    (replicateOrder env d).commands
      = [Command.placeSingle (d.securityId.getD "") env.sizedQuantity
          (some (min (env.sizedQuantity * dq / d.quantity)
            env.sizedQuantity))] := by
  unfold replicateOrder
  rw [hf]
  have hcore : replicateCore env d
      = { result := some fid,
          commands := [Command.placeSingle (d.securityId.getD "")
            env.sizedQuantity
            (some (min (env.sizedQuantity * dq / d.quantity)
              env.sizedQuantity))],
          mappingWrites := [placedMapping d fid env.sizedQuantity] } := by
    unfold replicateCore dispatchPlacement
    simp [hq, hmg, hco, hbo, hpl, followerDisclosedQty, hdq, hdq0,
      Nat.pos_of_ne_zero hq]
  cases henv : env.existingMapping with
  | none => simpa [henv] using congrArg ReplicateTrace.commands hcore
  | some m =>
      have : m.status ≠ "placed" := hm m henv
      simp only [henv]
      rw [if_neg this]
      exact congrArg ReplicateTrace.commands hcore

/-- Witness for C6: the concrete small-disclosed scenario, through the
amended statement. -/
theorem C6_disclosed_qty_proportional_witness :
    (replicateOrder envSmallFollower orderDataSmallDisclosed).commands
      = [Command.placeSingle "SEC6" 5 (some (min (5 * 10 / 100) 5))] :=
  C6_disclosed_qty_proportional_no_lower_clamp envSmallFollower
    orderDataSmallDisclosed 10 "F6" rfl
    (by intro m h; cases h) (by decide) rfl rfl (by decide)
    (by decide) (by decide) rfl

/-- A basic leader order event whose computed follower quantity (10000) is
far above the futures freeze limit (1800 for NIFTY). -/
def orderDataHuge : LeaderOrderData :=
  { orderId := some "L700", securityId := some "SEC7",
    exchangeSegment := some "NSE_FNO", transactionType := some "BUY",
    quantity := 20000, orderType := some "LIMIT",
    productType := some "INTRADAY", price := 50,
    disclosedQuantity := none, stopLossValue := none,
    coStopLossValue := none, boStopLossValue := none, boProfitValue := none }

/-- Sizer yields 10000 for the huge order; the broker accepts. -/
def envHuge : ReplicateEnv :=
  { existingMapping := none, sizedQuantity := 10000, marginOk := true,
    marginError := "", placeResult := some "F7" }

/-- Claim C7, counterexample: a follower quantity of 10000 — far above the
1800 freeze limit of the instrument — is still dispatched through the plain
single placement, not through `place_slice_order`. -/
theorem C7_cx_above_freeze_goes_single :
    1800 < envHuge.sizedQuantity
    ∧ (replicateOrder envHuge orderDataHuge).commands
        = [Command.placeSingle "SEC7" 10000 none] := by
  exact ⟨by decide, rfl⟩

/-- Claim C7 (amended): the replicator never dispatches the sliced
placement; dispatch depends only on the product type (`CO` → cover, `BO` →
bracket, anything else → single), with no freeze-limit test on any path. -/
theorem C7_never_dispatches_sliced (env : ReplicateEnv) (d : LeaderOrderData) :
    ((replicateOrder env d).commands.all fun c => !(c.isSliced)) = true := by
  unfold replicateOrder
  by_cases hf : fieldsPresent d
  · have hcore : ((replicateCore env d).commands.all
        fun c => !(c.isSliced)) = true := by
      unfold replicateCore dispatchPlacement
      by_cases h0 : env.sizedQuantity = 0
      · simp [h0]
      · by_cases hmg : env.marginOk
        · by_cases hco : d.productType = some "CO"
          · by_cases hsl : truthyQ (pyOrQ d.stopLossValue d.coStopLossValue)
            · cases hres : env.placeResult <;>
                simp [h0, hmg, hco, hsl, hres, Command.isSliced]
            · simp [h0, hmg, hco, hsl, Command.isSliced]
          · by_cases hbo : d.productType = some "BO"
            · by_cases hsl : (truthyQ d.boStopLossValue
                  && truthyQ d.boProfitValue) = true
              · cases hres : env.placeResult <;>
                  simp [h0, hmg, hco, hbo, hsl, hres, Command.isSliced]
              · simp [h0, hmg, hco, hbo, hsl, Command.isSliced]
            · cases hres : env.placeResult <;>
                simp [h0, hmg, hco, hbo, hres, Command.isSliced]
        · simp [h0, hmg]
    cases henv : env.existingMapping with
    | none => simpa [hf, henv] using hcore
    | some m =>
        by_cases hs : m.status = "placed" <;>
          simp [hf, henv, hs, hcore]
  · simp [hf]

/-!
## Bracket-order OCO
From Task-001 `orders/order_manager.py`
(`OrderManager._handle_bracket_order_oco`, reached from `handle_execution`).
-/

/-- One row of `bracket_order_legs` as returned by
`get_bracket_order_legs`. -/
structure BracketLeg where
  id : Nat
  order_id : String
  leg_type : String
  status : String
  deriving DecidableEq

/-- The terminal order statuses the cancellation loops skip. -/
def terminalStatuses : List String := ["EXECUTED", "TRADED", "CANCELLED", "REJECTED"]

/-- `'stop_loss' if executed_leg_type == 'target' else 'target'`. -/
def oppositeLegType (t : String) : String :=
  if t = "target" then "stop_loss" else "target"

/-- `OrderManager._handle_bracket_order_oco`: the ids of the legs it issues
`cancel_order` for.  The executed order id from the event is never examined
— there is no leg-graph inference; when the `legType` tag is absent (or
empty, both falsy in Python), the handler records a warning and cancels
nothing.  With a tag, it cancels the non-terminal legs of the opposite leg
type. -/
def handleBracketOrderOco (legs : List BracketLeg) (executedOrderId : String)
    (legType : Option String) : List String :=
  if legs.isEmpty then []
  else
    match legType with
    | none => []
    | some t =>
        if t = "" then []
        else
          (legs.filter fun l =>
            l.leg_type == oppositeLegType t
              && !(terminalStatuses.contains l.status)).map
            fun l => l.order_id

/-!
## Claim C4
-/

/-- A leg graph in which the executed target leg is identifiable by its
order id and the stop leg is live. -/
def sampleLegs : List BracketLeg :=
  [{ id := 1, order_id := "T1", leg_type := "target", status := "EXECUTED" },
   { id := 2, order_id := "S1", leg_type := "stop_loss", status := "PENDING" }]

/-- Claim C4, counterexample: the execution event lacks the leg-kind tag,
the fired leg ("T1") is resolvable from the leg graph, and a non-terminal
sibling ("S1") exists — yet the handler issues no cancel at all: there is no
graph-based inference, only the tag path. -/
theorem C4_cx_no_graph_inference :
    handleBracketOrderOco sampleLegs "T1" none = []
    ∧ (sampleLegs.any fun l => l.order_id == "T1") = true
    ∧ (sampleLegs.any fun l =>
        l.leg_type == "stop_loss"
          && !(terminalStatuses.contains l.status)) = true := by
  exact ⟨rfl, rfl, rfl⟩

/-- Bridging lemma: `List.contains` on strings decides membership. -/
theorem containsStr_false_iff (l : List String) (a : String) :
    l.contains a = false ↔ a ∉ l := by simp

/-- Claim C4 (amended): when the event carries a leg-kind tag, exactly the
non-terminal legs of the opposite leg type receive a cancel; when the tag is
absent the handler takes no OCO action (recording a warning) — the fired leg
is never inferred from the leg graph. -/
theorem C4_oco_tag_only (legs : List BracketLeg) (executedOrderId : String)
    (t : String) (x : String) (ht : t ≠ "") :
    handleBracketOrderOco legs executedOrderId none = []
    ∧ (x ∈ handleBracketOrderOco legs executedOrderId (some t)
        ↔ ∃ l ∈ legs, l.order_id = x ∧ l.leg_type = oppositeLegType t
            ∧ l.status ∉ terminalStatuses) := by
  constructor
  · unfold handleBracketOrderOco
    by_cases h : legs.isEmpty <;> simp [h]
  · unfold handleBracketOrderOco
    by_cases h : legs.isEmpty
    · rw [if_pos h]
      rw [List.isEmpty_iff] at h
      subst h
      simp
    · simp only [handleBracketOrderOco, if_neg h, if_neg ht, List.mem_map,
        List.mem_filter, Bool.and_eq_true, beq_iff_eq, Bool.not_eq_true']
      constructor
      · rintro ⟨l, ⟨hl, hty, hst⟩, hid⟩
        exact ⟨l, hl, hid, hty,
          (containsStr_false_iff terminalStatuses l.status).mp hst⟩
      · rintro ⟨l, hl, hid, hty, hst⟩
        exact ⟨l, ⟨hl, hty,
          (containsStr_false_iff terminalStatuses l.status).mpr hst⟩, hid⟩

/-- Witness for C4: on the concrete leg graph, with the tag `target`
present, the live stop leg "S1" is cancelled. -/
theorem C4_oco_tag_only_witness :
    "S1" ∈ handleBracketOrderOco sampleLegs "T1" (some "target") :=
  (C4_oco_tag_only sampleLegs "T1" "target" "S1" (by decide)).2.mpr
    ⟨{ id := 2, order_id := "S1", leg_type := "stop_loss", status := "PENDING" },
      by decide, rfl, rfl, by decide⟩

/-!
## Resilience: retry and circuit breaker
From `utils/resilience.py` (`RetryStrategy.__call__`, `CircuitBreaker`).
-/

/-- The backoff computed after failed attempt `k`
(`min(self.backoff_factor ** (attempt - 1), self.max_backoff)`): the
exponential term is capped at `max_backoff` BEFORE jitter is applied. -/
def retryBackoff (backoffFactor maxBackoff : ℚ) (attempt : Nat) : ℚ :=
  min (backoffFactor ^ (attempt - 1)) maxBackoff

/-- The actual sleep (`jitter = backoff * random.uniform(0.75, 1.25)`): a
jitter factor drawn from `[0.75, 1.25]` multiplies the already-capped
backoff, so the sleep can exceed `max_backoff`. -/
def retryWait (backoffFactor maxBackoff : ℚ) (attempt : Nat)
    (jitterFactor : ℚ) : ℚ :=
  retryBackoff backoffFactor maxBackoff attempt * jitterFactor

/-- The retry loop of `RetryStrategy.__call__`, with `f k` the outcome of
attempt `k`: attempts run from `k` with `remaining` tries left; on the last
attempt the exception is re-raised to the caller.  (The `0` case is
unreachable: `max_attempts` is at least 1.) -/
def retryAttempts {E A : Type} (f : Nat → Except E A) :
    Nat → Nat → Except E A
  | k, 0 => f k
  | k, 1 => f k
  | k, remaining + 2 =>
      match f k with
      | Except.ok a => Except.ok a
      | Except.error _ => retryAttempts f (k + 1) (remaining + 1)

/-- `for attempt in range(1, self.max_attempts + 1)`. -/
def retryRun {E A : Type} (f : Nat → Except E A) (maxAttempts : Nat) :
    Except E A :=
  retryAttempts f 1 maxAttempts

/-- When every attempt in the window fails, the loop returns the outcome of
the last attempt. -/
theorem retryAttempts_all_fail {E A : Type} (f : Nat → Except E A) :
    ∀ (n k : Nat), 1 ≤ n →
      (∀ i, k ≤ i → i ≤ k + n - 1 → ∃ e, f i = Except.error e) →
      retryAttempts f k n = f (k + n - 1) := by
  intro n
  induction n with
  | zero => intro k h; exact absurd h (by decide)
  | succ m ih =>
      intro k _ hfail
      match m with
      | 0 =>
          show retryAttempts f k 1 = f (k + 1 - 1)
          rw [Nat.add_sub_cancel]
          rfl
      | m' + 1 =>
          obtain ⟨e, he⟩ := hfail k (le_refl k) (by omega)
          show (match f k with
            | Except.ok a => Except.ok a
            | Except.error _ => retryAttempts f (k + 1) (m' + 1)) = _
          rw [he]
          have hrec := ih (k + 1) (by omega)
            (fun i h1 h2 => hfail i (by omega) (by omega))
          have harg : k + 1 + (m' + 1) - 1 = k + (m' + 1 + 1) - 1 := by omega
          rw [hrec, harg]

/-!
## Claim C8
-/

/-- Claim C8, counterexample: with multiplier 2 and `max_backoff = 30`, the
wait before the retry that follows attempt 7, at the admissible jitter
factor 1.25, is `min(2^6, 30) * 1.25 = 37.5 > 30` — the cap is applied
before the jitter, so the resulting wait exceeds `max_backoff`. -/
theorem C8_cx_wait_exceeds_max_backoff :
    ((3/4 : ℚ) ≤ 5/4 ∧ (5/4 : ℚ) ≤ 5/4)
    ∧ retryWait 2 30 7 (5/4) = 75/2
    ∧ (30 : ℚ) < retryWait 2 30 7 (5/4) := by
  refine ⟨⟨by norm_num, le_refl _⟩, ?_, ?_⟩ <;>
    · rw [retryWait, retryBackoff]
      norm_num [min_eq_right]

/-- Claim C8 (amended): the wait before the retry that follows attempt `k`
is `min(multiplier^(k-1), max_backoff) * jitter` with the jitter factor in
`[0.75, 1.25]` applied AFTER the cap, so it is bounded by
`1.25 * max_backoff` (not by `max_backoff`); and when all `N` attempts fail
the error of the last attempt surfaces to the caller. -/
theorem C8_backoff_capped_before_jitter {E A : Type}
    (backoffFactor maxBackoff jitterFactor : ℚ) (k maxAttempts : Nat)
    (f : Nat → Except E A)
    (hmb : 0 ≤ maxBackoff) (hj0 : 0 ≤ jitterFactor)
    (hj : jitterFactor ≤ 5/4) (hN : 1 ≤ maxAttempts)
    (hfail : ∀ i, 1 ≤ i → i ≤ maxAttempts → ∃ e, f i = Except.error e) :
    retryWait backoffFactor maxBackoff k jitterFactor
      = min (backoffFactor ^ (k - 1)) maxBackoff * jitterFactor
    ∧ retryWait backoffFactor maxBackoff k jitterFactor ≤ maxBackoff * (5/4)
    ∧ retryRun f maxAttempts = f maxAttempts := by
  refine ⟨rfl, ?_, ?_⟩
  · exact mul_le_mul (min_le_right _ _) hj hj0 hmb
  · have := retryAttempts_all_fail f maxAttempts 1 hN
      (fun i h1 h2 => hfail i h1 (by omega))
    rw [retryRun, this]
    congr 1
    omega

/-- Witness for C8: two attempts, both failing, surface the second error;
the concrete wait bound holds at jitter factor 1. -/
theorem C8_backoff_capped_before_jitter_witness :
    retryWait 2 30 3 1 = min ((2 : ℚ) ^ (3 - 1)) 30 * 1
    ∧ retryWait 2 30 3 1 ≤ 30 * (5/4)
    ∧ retryRun (fun i => (Except.error (Nat.repr i) : Except String Unit)) 2
        = Except.error (Nat.repr 2) :=
  C8_backoff_capped_before_jitter 2 30 1 3 2
    (fun i => (Except.error (Nat.repr i) : Except String Unit))
    (by norm_num) (by norm_num) (by norm_num) (by norm_num)
    (fun i _ _ => ⟨Nat.repr i, rfl⟩)

/-!
## Circuit breaker
-/

/-- `CircuitState` (`resilience.py`): CLOSED / OPEN / HALF_OPEN.  (`OPEN` is
rendered `opened` because `open` is reserved.) -/
inductive CircuitState
  | closed
  | opened
  | halfOpen
  deriving DecidableEq

/-- Breaker tuning (`failure_threshold`, `success_threshold`,
`recovery_timeout`). -/
structure BreakerConfig where
  failureThreshold : Nat
  successThreshold : Nat
  recoveryTimeout : ℚ
  deriving DecidableEq

/-- Breaker mutable state (`failure_count`, `success_count`,
`last_failure_time`, `state`). -/
structure BreakerState where
  failureCount : Nat
  successCount : Nat
  lastFailureTime : Option ℚ
  state : CircuitState
  deriving DecidableEq

/-- `CircuitBreaker._can_attempt` as a function of the current time:
returns whether the call is admitted and the (possibly) updated state.
CLOSED always admits; OPEN admits — flipping to HALF_OPEN and resetting
both counters — once `now - last_failure_time >= recovery_timeout`, and
rejects (fail fast, the underlying call is not invoked) before that;
HALF_OPEN always admits.  In OPEN the `last_failure_time` is always set,
having been written by the failure that opened the circuit; `getD 0` stands
in for Python's would-be `TypeError` on the unreachable `None`. -/
def canAttempt (cfg : BreakerConfig) (s : BreakerState) (now : ℚ) :
    Bool × BreakerState :=
  match s.state with
  | CircuitState.closed => (true, s)
  | CircuitState.opened =>
      if cfg.recoveryTimeout ≤ now - s.lastFailureTime.getD 0 then
        (true, { s with state := CircuitState.halfOpen,
                        failureCount := 0, successCount := 0 })
      else (false, s)
  | CircuitState.halfOpen => (true, s)

/-- `CircuitBreaker._record_success`: reset the failure count; in HALF_OPEN
count the success and close once `success_threshold` is reached. -/
def recordSuccess (cfg : BreakerConfig) (s : BreakerState) : BreakerState :=
  let s1 := { s with failureCount := 0 }
  if s1.state = CircuitState.halfOpen then
    if cfg.successThreshold ≤ s1.successCount + 1 then
      { s1 with state := CircuitState.closed, successCount := 0 }
    else { s1 with successCount := s1.successCount + 1 }
  else s1

/-- `CircuitBreaker._record_failure`: count the failure, stamp the time,
zero the success count, and open once `failure_threshold` is reached. -/
def recordFailure (cfg : BreakerConfig) (s : BreakerState) (now : ℚ) :
    BreakerState :=
  let s1 := { s with failureCount := s.failureCount + 1,
                     successCount := 0, lastFailureTime := some now }
  if cfg.failureThreshold ≤ s1.failureCount then
    { s1 with state := CircuitState.opened }
  else s1

/-!
## Claim C9
-/

/-- A breaker opened at time 0 with thresholds F = 2, S = 2, T = 60. -/
def breakerCfg : BreakerConfig :=
  { failureThreshold := 2, successThreshold := 2, recoveryTimeout := 60 }

/-- The breaker state just after the failure that opened it at time 0. -/
def breakerOpenState : BreakerState :=
  { failureCount := 2, successCount := 0, lastFailureTime := some 0,
    state := CircuitState.opened }

/-- Claim C9, counterexample: after the recovery timeout the breaker flips
to HALF_OPEN and admits a probe — but a second command issued before any
outcome is recorded is admitted as well (HALF_OPEN admits every call), so it
is not true that exactly one probe call is allowed. -/
theorem C9_cx_half_open_admits_every_call :
    (canAttempt breakerCfg breakerOpenState 60).1 = true
    ∧ (canAttempt breakerCfg breakerOpenState 60).2.state = CircuitState.halfOpen
    ∧ (canAttempt breakerCfg
        (canAttempt breakerCfg breakerOpenState 60).2 60).1 = true
    ∧ (canAttempt breakerCfg
        (canAttempt breakerCfg breakerOpenState 60).2 60).2
      = (canAttempt breakerCfg breakerOpenState 60).2 := by
  have h1 : canAttempt breakerCfg breakerOpenState 60
      = (true, { failureCount := 0, successCount := 0,
                 lastFailureTime := some 0,
                 state := CircuitState.halfOpen }) := by
    unfold canAttempt breakerCfg breakerOpenState
    norm_num
  refine ⟨by rw [h1], by rw [h1], by rw [h1]; rfl, by rw [h1]; rfl⟩

/-- Claim C9 (amended): the breaker opens exactly when the consecutive
failure count reaches `F` (a success resets the count); while OPEN and
within `T` of the last failure every command fails fast without invoking
the call; after `T` it flips to HALF_OPEN, where EVERY command is admitted
as a probe (not just one); it closes after `S` successes in HALF_OPEN, and
a failed probe below `F` fresh failures leaves it HALF_OPEN. -/
theorem C9_breaker_state_machine (cfg : BreakerConfig) (s : BreakerState)
    (now t : ℚ) :
    (s.state = CircuitState.closed → canAttempt cfg s now = (true, s))
    ∧ (s.state = CircuitState.opened → s.lastFailureTime = some t →
        now - t < cfg.recoveryTimeout → canAttempt cfg s now = (false, s))
    ∧ (s.state = CircuitState.opened → s.lastFailureTime = some t →
        cfg.recoveryTimeout ≤ now - t →
        canAttempt cfg s now
          = (true, { s with state := CircuitState.halfOpen,
                            failureCount := 0, successCount := 0 }))
    ∧ (s.state = CircuitState.halfOpen → canAttempt cfg s now = (true, s))
    ∧ ((recordSuccess cfg s).failureCount = 0)
    ∧ (s.state = CircuitState.closed →
        (recordSuccess cfg s).state = CircuitState.closed)
    ∧ (cfg.failureThreshold ≤ s.failureCount + 1 →
        (recordFailure cfg s now).state = CircuitState.opened)
    ∧ (s.failureCount + 1 < cfg.failureThreshold →
        recordFailure cfg s now
          = { s with failureCount := s.failureCount + 1,
                     successCount := 0, lastFailureTime := some now })
    ∧ (s.state = CircuitState.halfOpen →
        cfg.successThreshold ≤ s.successCount + 1 →
        (recordSuccess cfg s).state = CircuitState.closed)
    ∧ (s.state = CircuitState.halfOpen →
        s.successCount + 1 < cfg.successThreshold →
        (recordSuccess cfg s).state = CircuitState.halfOpen
          ∧ (recordSuccess cfg s).successCount = s.successCount + 1) := by
  refine ⟨?_, ?_, ?_, ?_, ?_, ?_, ?_, ?_, ?_, ?_⟩
  · intro h; unfold canAttempt; rw [h]
  · intro h hlt hT; unfold canAttempt; rw [h]
    simp [hlt, not_le.mpr hT]
  · intro h hlt hT; unfold canAttempt; rw [h]
    simp [hlt, hT]
  · intro h; unfold canAttempt; rw [h]
  · unfold recordSuccess
    by_cases h : s.state = CircuitState.halfOpen <;>
      by_cases h2 : cfg.successThreshold ≤ s.successCount + 1 <;>
        simp [h, h2]
  · intro h; unfold recordSuccess
    rw [h]; simp
  · intro h; unfold recordFailure; simp [h]
  · intro h; unfold recordFailure
    simp [Nat.not_le.mpr h]
  · intro h h2; unfold recordSuccess
    simp [h, h2]
  · intro h h2; unfold recordSuccess
    simp [h, Nat.not_le.mpr h2]

/-- Witness for C9: a closed breaker admits a call unchanged, and a breaker
one failure short of the threshold opens on the next failure. -/
theorem C9_breaker_state_machine_witness :
    canAttempt breakerCfg
      { failureCount := 0, successCount := 0, lastFailureTime := none,
        state := CircuitState.closed } 5
      = (true, { failureCount := 0, successCount := 0, lastFailureTime := none,
                 state := CircuitState.closed })
    ∧ (recordFailure breakerCfg
        { failureCount := 1, successCount := 0, lastFailureTime := some 0,
          state := CircuitState.closed } 7).state = CircuitState.opened :=
  ⟨(C9_breaker_state_machine breakerCfg
      { failureCount := 0, successCount := 0, lastFailureTime := none,
        state := CircuitState.closed } 5 0).1 rfl,
    ((C9_breaker_state_machine breakerCfg
      { failureCount := 1, successCount := 0, lastFailureTime := some 0,
        state := CircuitState.closed } 7 0).2.2.2.2.2.2.1) (by decide)⟩

/-!
## Claim C5
-/

/-- `_apply_risk_limits` with a truthy premium, reduced to its two branches:
above the cap it cuts to `int(cap / (premium * lot_size))` lots, otherwise
it returns the quantity unchanged. -/
theorem applyRiskLimits_truthy_premium (q L : Nat) (p bal pct : ℚ)
    (hq : q ≠ 0) (hp : p ≠ 0) :
    applyRiskLimits q L (some p) bal pct
      = if positionCap bal pct < (q : ℚ) * p then
          truncQ (positionCap bal pct / (p * L)) * L
        else q := by
  simp only [applyRiskLimits, truthyQ, if_neg hq, Option.getD_some,
    bne_iff_ne, ne_eq, hp, not_false_eq_true, if_true, gt_iff_lt]

/-- Truncation toward zero agrees with the floor on nonnegative values. -/
theorem truncQ_of_nonneg (q : ℚ) (h : 0 ≤ q) : truncQ q = Int.floor q := by
  simp [truncQ, not_lt.mpr h]

/-- Claim C5, counterexample: with NO premium (a market order has price 0),
the over-cap reduction subtracts exactly one lot instead of fitting the cap:
leader qty 100, lot 50, follower balance 40000, cap 10% (= 4000) yield a
final quantity of one lot (50) whose code-estimated position value
(50 x 100 = 5000) still exceeds the cap. -/
theorem C5_cx_one_lot_over_cap_without_premium :
    calculateQuantity SizingStrategy.fixedRatio (some 1) 10 0 40000 100
        (some { security_id := "SEC5", lot_size := 50 }) none = 50
    ∧ positionCap 40000 10 < (50 : ℚ) * 100 := by
  constructor
  · show applyRiskLimits (roundToLotSize (rawQuantity SizingStrategy.fixedRatio
        (some 1) 10 0 40000 100 { security_id := "SEC5", lot_size := 50 } none)
        50) 50 none 40000 10 = 50
    have hraw : rawQuantity SizingStrategy.fixedRatio (some 1) 10 0 40000 100
        { security_id := "SEC5", lot_size := 50 } none = 100 := by
      simp [rawQuantity]
    rw [hraw]
    have hadj : roundToLotSize 100 50 = 100 := by
      rw [roundToLotSize, if_neg (by norm_num)]
      norm_num
      decide
    rw [hadj]
    rw [applyRiskLimits, if_neg (by norm_num)]
    simp only [truthyQ]
    rw [if_pos (by norm_num [positionCap])]
    norm_num
  · norm_num [positionCap]

/-- Claim C5 (amended): with a positive premium supplied, the sizing tail
behaves as claimed — lot rounding is `floor(raw / L) * L` whenever that
floor is at least one lot; a zero floor with positive raw yields one lot
exactly when the one-lot position value fits the cap and zero otherwise; the
final quantity is always a whole multiple of the lot size; and a final
quantity of exactly one lot implies the one-lot value is within the cap.
(Without a premium the cap reduction subtracts one lot and can leave a
one-lot quantity whose estimated value exceeds the cap.) -/
theorem C5_lot_rounding_respects_cap (raw : ℚ) (L : Nat) (p bal pct : ℚ)
    (hL : 0 < L) (hraw : 0 < raw) (hp : 0 < p)
    (hcap : 0 ≤ positionCap bal pct) :
    (1 ≤ Int.floor (raw / (L : ℚ)) →
        roundToLotSize raw L = (Int.floor (raw / (L : ℚ))).toNat * L)
    ∧ (Int.floor (raw / (L : ℚ)) = 0 →
        applyRiskLimits (roundToLotSize raw L) L (some p) bal pct
          = if (L : ℚ) * p ≤ positionCap bal pct then (L : Int) else 0)
    ∧ ((L : Int) ∣ applyRiskLimits (roundToLotSize raw L) L (some p) bal pct)
    ∧ (applyRiskLimits (roundToLotSize raw L) L (some p) bal pct = L →
        (L : ℚ) * p ≤ positionCap bal pct) := by
  have hLQ : (0 : ℚ) < (L : ℚ) := by exact_mod_cast hL
  have hpL : (0 : ℚ) < p * (L : ℚ) := mul_pos hp hLQ
  have hround : roundToLotSize raw L
      = max (Int.floor (raw / (L : ℚ))).toNat 1 * L := by
    rw [roundToLotSize, if_neg (not_le.mpr hraw)]
  have hroundpos : roundToLotSize raw L ≠ 0 := by
    rw [hround]
    exact Nat.mul_ne_zero (by omega) hL.ne'
  refine ⟨?_, ?_, ?_, ?_⟩
  · intro hfl
    rw [hround]
    congr 1
    exact Nat.max_eq_left ((Int.le_toNat (le_trans zero_le_one hfl)).mpr
      (by exact_mod_cast hfl))
  · intro hfl
    have hadj : roundToLotSize raw L = L := by
      rw [hround, hfl]
      simp
    rw [hadj, applyRiskLimits_truthy_premium L L p bal pct hL.ne' hp.ne']
    by_cases hc : positionCap bal pct < (L : ℚ) * p
    · rw [if_pos hc, if_neg (not_le.mpr hc)]
      have hdiv0 : (0 : ℚ) ≤ positionCap bal pct / (p * L) :=
        div_nonneg hcap hpL.le
      have hdiv1 : positionCap bal pct / (p * L) < 1 :=
        (div_lt_one hpL).mpr (by rw [mul_comm]; exact hc)
      rw [truncQ_of_nonneg _ hdiv0,
        Int.floor_eq_zero_iff.mpr ⟨hdiv0, hdiv1⟩, zero_mul]
    · rw [if_neg hc, if_pos (not_lt.mp hc)]
  · rw [applyRiskLimits_truthy_premium _ L p bal pct hroundpos hp.ne']
    by_cases hc : positionCap bal pct < ((roundToLotSize raw L : ℚ)) * p
    · rw [if_pos hc]
      exact dvd_mul_left _ _
    · rw [if_neg hc, hround]
      exact_mod_cast dvd_mul_left L (max (Int.floor (raw / (L : ℚ))).toNat 1)
  · intro hfin
    rw [applyRiskLimits_truthy_premium _ L p bal pct hroundpos hp.ne'] at hfin
    by_cases hc : positionCap bal pct < ((roundToLotSize raw L : ℚ)) * p
    · rw [if_pos hc] at hfin
      have hLint : (L : Int) ≠ 0 := by exact_mod_cast hL.ne'
      have h1 : truncQ (positionCap bal pct / (p * L)) = 1 := by
        have h2 : truncQ (positionCap bal pct / (p * (L : ℚ))) * (L : Int)
            = 1 * (L : Int) := by
          rw [one_mul]
          exact hfin
        exact mul_right_cancel₀ hLint h2
      have hdiv0 : (0 : ℚ) ≤ positionCap bal pct / (p * L) :=
        div_nonneg hcap hpL.le
      rw [truncQ_of_nonneg _ hdiv0] at h1
      have hge1 : (1 : ℚ) ≤ positionCap bal pct / (p * L) := by
        have := Int.floor_le (positionCap bal pct / (p * (L : ℚ)))
        rw [h1] at this
        exact_mod_cast this
      have := (one_le_div hpL).mp hge1
      calc (L : ℚ) * p = p * L := mul_comm _ _
        _ ≤ positionCap bal pct := this
    · rw [if_neg hc] at hfin
      have hAL : roundToLotSize raw L = L := by exact_mod_cast hfin
      rw [hAL] at hc
      exact not_lt.mp hc

/-- Witness for C5: raw 30 with lot 50 floors to zero lots; the one-lot
value 50 is within the cap 10000, so the final quantity is one lot. -/
theorem C5_lot_rounding_respects_cap_witness :
    applyRiskLimits (roundToLotSize 30 50) 50 (some 1) 100000 10 = 50 := by
  have h := (C5_lot_rounding_respects_cap 30 50 1 100000 10
    (by norm_num) (by norm_num) (by norm_num)
    (by norm_num [positionCap])).2.1 (by norm_num)
  rw [h, if_pos (by norm_num [positionCap])]
  norm_num

end CopyTrading
